/-
Verification of the pika-plot test-data generators.

This file shallowly embeds the two generator scripts of the repository,
`test_data/generate_large_dataset.py` and
`fresh/test_data/generate_large_test_data.py`, and proves (or refutes)
the specification claims about them.

Modelling conventions:
* Python floats are modelled by `ℚ`.
* The `random` module's stream of uniform [0,1) draws is modelled by a
  list of rationals (`Rng.u`); an exhausted stream keeps producing 0,
  which is itself a legal [0,1) draw.  `numpy.random` distribution
  samples (normal / lognormal / exponential) are modelled by an oracle
  stream (`Rng.np`) whose entry IS the drawn sample; the distribution
  parameters only shape the distribution of that stream, which the
  embedding leaves arbitrary.
* `random.choice(seq)` picks index `⌊r·len⌋` from a uniform draw
  `r ∈ [0,1)`; the `% len` below only makes the function total, it is
  the identity whenever `r ∈ [0,1)`.
* `random.randint(a,b)` is uniform on `[a,b]`, modelled the same way.
* Python's `str(int)` is modelled by `natStr`/`intStr` (plain decimal
  rendering), and `f"{x:.kf}"` by `fmtDec k` (rounding to nearest at
  k decimals; the tie-breaking direction is irrelevant to every claim).
* `datetime.date`s are day numbers (days since 1970-01-01) and
  `strftime('%Y-%m-%d')` is `dateStr`, which performs the standard
  civil-from-days calendar conversion.
-/
import Mathlib

namespace PikaPlot

/-! ## The random-stream model -/

/-- The pseudo-random state: `u` is the stream of `random.random()`
[0,1) draws, `np` the oracle stream of numpy distribution samples. -/
structure Rng where
  u : List ℚ
  np : List ℚ
  deriving DecidableEq

/-- Consume one uniform [0,1) draw from the `random` module stream. -/
def nextU (s : Rng) : ℚ × Rng :=
  (s.u.headD 0, ⟨s.u.tail, s.np⟩)

/-- Consume one numpy distribution sample from the oracle stream. -/
def nextNp (s : Rng) : ℚ × Rng :=
  (s.np.headD 0, ⟨s.u, s.np.tail⟩)

/-- `random.choice(l)` given the uniform draw `r`: element at index
`⌊r·len⌋` (the `% len` is the identity for `r ∈ [0,1)`). -/
def pyChoiceVal (d : α) (l : List α) (r : ℚ) : α :=
  l.getD ((Int.toNat ⌊r * l.length⌋) % l.length) d

/-- `random.uniform(a,b)` from the uniform draw `r`. -/
def pyUniform (a b r : ℚ) : ℚ := a + r * (b - a)

/-- `random.randint(a,b)` (inclusive bounds) from the uniform draw `r`. -/
def pyRandintNat (a b : ℕ) (r : ℚ) : ℕ :=
  a + (Int.toNat ⌊r * ((b : ℚ) - a + 1)⌋) % (b - a + 1)

/-- Python `int()` applied to a float: truncation toward zero. -/
def intTrunc (q : ℚ) : ℤ := if q < 0 then ⌈q⌉ else ⌊q⌋

/-- All entries of a `random`-module stream are legal [0,1) draws. -/
def validU (l : List ℚ) : Prop := ∀ r ∈ l, 0 ≤ r ∧ r < 1

instance validU_decidable (l : List ℚ) : Decidable (validU l) :=
  decidable_of_iff (∀ r ∈ l, 0 ≤ r ∧ r < 1) Iff.rfl

/-! ## Decimal rendering (Python `str` / format specifiers) -/

/-- The decimal digit characters. -/
def digitChars : List Char :=
  ['0', '1', '2', '3', '4', '5', '6', '7', '8', '9']

/-- Character for a single decimal digit. -/
def digitChar (d : ℕ) : Char := digitChars.getD d '9'

/-- Numeric value of a digit character. -/
def digitVal (c : Char) : ℕ := c.toNat - 48

/-- Decimal digits of `n`, most significant first (fuel-driven so that
it reduces definitionally). -/
def toDigitsCore : ℕ → ℕ → List Char
  | 0, _ => []
  | fuel + 1, n =>
    if n < 10 then [digitChar n]
    else toDigitsCore fuel (n / 10) ++ [digitChar (n % 10)]

/-- Python `str` of a natural number. -/
def natStr (n : ℕ) : String := ⟨toDigitsCore (n + 1) n⟩

/-- Python `str` of an integer. -/
def intStr (i : ℤ) : String :=
  if i < 0 then "-" ++ natStr i.natAbs else natStr i.toNat

/-- Read a digit string back as a natural number. -/
def parseDigits (l : List Char) : ℕ :=
  l.foldl (fun a c => 10 * a + digitVal c) 0

/-- Left-pad a string with zeros up to width `k` (Python `%0kd`). -/
def padZeros (k : ℕ) (s : String) : String :=
  ⟨List.replicate (k - s.length) '0' ++ s.data⟩

/-- `f"{n:02d}"`. -/
def pad2 (n : ℕ) : String := padZeros 2 (natStr n)

/-- `f"{n:03d}"`. -/
def pad3 (n : ℕ) : String := padZeros 3 (natStr n)

/-- `f"{n:04d}"`. -/
def pad4 (n : ℕ) : String := padZeros 4 (natStr n)

/-- Render the scaled integer `c` (value `c / 10^k`) with `k` forced
decimals, as Python float formatting does once the value is rounded. -/
def decStrNat (k m : ℕ) : String :=
  natStr (m / 10 ^ k) ++ "." ++ padZeros k (natStr (m % 10 ^ k))

/-- Signed version of `decStrNat`. -/
def decStr (k : ℕ) (c : ℤ) : String :=
  if c < 0 then "-" ++ decStrNat k c.natAbs else decStrNat k c.toNat

/-- Python `f"{q:.kf}"`: round to nearest at `k` decimals and render. -/
def fmtDec (k : ℕ) (q : ℚ) : String := decStr k (round (q * (10 : ℚ) ^ k))

/-! ## Calendar rendering (`strftime('%Y-%m-%d')`) -/

/-- Standard civil-from-days conversion: day number `z` (days since
1970-01-01) to `(year, month, day)`.  Valid for all dates after
0000-03-01, which covers every date the generators produce. -/
def civilFromDays (z : ℤ) : ℤ × ℕ × ℕ :=
  let zz := (z + 719468).toNat
  let era := zz / 146097
  let doe := zz % 146097
  let yoe := (doe - doe / 1460 + doe / 36524 - doe / 146096) / 365
  let doy := doe - (365 * yoe + yoe / 4 - yoe / 100)
  let mp := (5 * doy + 2) / 153
  let d := doy - (153 * mp + 2) / 5 + 1
  let m := if mp < 10 then mp + 3 else mp - 9
  ((era : ℤ) * 400 + yoe + (if m ≤ 2 then 1 else 0), m, d)

/-- `date.strftime('%Y-%m-%d')` for the day number `z`. -/
def dateStr (z : ℤ) : String :=
  pad4 (civilFromDays z).1.toNat ++ "-" ++ pad2 (civilFromDays z).2.1 ++ "-" ++
    pad2 (civilFromDays z).2.2

/-- `random.choice(l)` consuming one draw from the stream. -/
def pyChoice (d : α) (l : List α) (s : Rng) : α × Rng :=
  let p := nextU s
  (pyChoiceVal d l p.1, p.2)

/-! ## `fresh/test_data/generate_large_test_data.py` -/

namespace GenLargeTestData

def COUNTRIES : List String :=
  ["US", "CA", "UK", "DE", "FR", "AU", "JP", "IT", "BR", "ES", "NL", "SE", "NO", "DK", "FI"]

def DEVICE_TYPES : List String :=
  ["iphone", "android", "desktop", "tablet", "smartwatch"]

/-- The `OS_VERSIONS` dict: device type to its valid OS-version list. -/
def OS_VERSIONS (d : String) : Option (List String) :=
  if d = "iphone" then
    some ["iOS 16.0", "iOS 16.1", "iOS 16.2", "iOS 16.3", "iOS 16.4", "iOS 16.5",
          "iOS 16.6", "iOS 17.0", "iOS 17.1", "iOS 17.2"]
  else if d = "android" then
    some ["Android 12", "Android 13", "Android 14"]
  else if d = "desktop" then
    some ["Windows 10", "Windows 11", "MacOS 13", "MacOS 14", "Ubuntu 22.04", "Ubuntu 23.04"]
  else if d = "tablet" then
    some ["iPadOS 16", "iPadOS 17", "Android 13", "Android 14"]
  else if d = "smartwatch" then
    some ["watchOS 9", "watchOS 10", "WearOS 4"]
  else none

def EMAIL_DOMAINS : List String :=
  ["gmail.com", "outlook.com", "yahoo.com", "hotmail.com", "icloud.com", "protonmail.com"]

def REFERRAL_SOURCES : List String :=
  ["google", "facebook", "instagram", "twitter", "email", "direct", "organic", "paid", "referral"]

def PAYMENT_METHODS : List String :=
  ["credit_card", "paypal", "debit_card", "apple_pay", "google_pay", "bank_transfer"]

def SUBSCRIPTION_TYPES : List String :=
  ["monthly", "annual", "quarterly", "weekly"]

def PREMIUM_TIERS : List String :=
  ["free", "standard", "premium", "enterprise"]

/-- The five null-sentinel strings (`null_types` in every generator). -/
def nullTypes : List String := ["", "null", "NULL", "-", "N/A"]

/-- `int(np.random.normal(35, 12))`: the normal sample is the oracle entry. -/
def generate_realistic_age (s : Rng) : ℤ × Rng :=
  let p := nextNp s
  (intTrunc p.1, p.2)

/-- `int(np.random.lognormal(10.5, 0.5) * 1000)`: the log-normal sample is
the oracle entry. -/
def generate_realistic_income (s : Rng) : ℤ × Rng :=
  let p := nextNp s
  (intTrunc (p.1 * 1000), p.2)

def generate_boolean_with_null_probability (null_prob : ℚ) (s : Rng) : String × Rng :=
  let p := nextU s
  if p.1 < null_prob then pyChoice "" nullTypes p.2
  else pyChoice "" ["true", "false"] p.2

def generate_float_with_null_probability (min_val max_val null_prob : ℚ) (s : Rng) :
    String × Rng :=
  let p := nextU s
  if p.1 < null_prob then pyChoice "" nullTypes p.2
  else
    let q := nextU p.2
    (fmtDec 2 (pyUniform min_val max_val q.1), q.2)

def generate_integer_with_null_probability (min_val max_val : ℕ) (null_prob : ℚ)
    (s : Rng) : String × Rng :=
  let p := nextU s
  if p.1 < null_prob then pyChoice "" nullTypes p.2
  else
    let q := nextU p.2
    (natStr (pyRandintNat min_val max_val q.1), q.2)

def generate_date_with_null_probability (start_date end_date : ℤ) (null_prob : ℚ)
    (s : Rng) : String × Rng :=
  let p := nextU s
  if p.1 < null_prob then pyChoice "" nullTypes p.2
  else
    let q := nextU p.2
    let days_between := (end_date - start_date).toNat
    (dateStr (start_date + pyRandintNat 0 days_between q.1), q.2)

def generate_time_with_null_probability (null_prob : ℚ) (s : Rng) : String × Rng :=
  let p := nextU s
  if p.1 < null_prob then pyChoice "" nullTypes p.2
  else
    let qh := nextU p.2
    let qm := nextU qh.2
    let qs := nextU qm.2
    (pad2 (pyRandintNat 0 23 qh.1) ++ ":" ++ pad2 (pyRandintNat 0 59 qm.1) ++ ":" ++
      pad2 (pyRandintNat 0 59 qs.1), qs.2)

def generate_datetime_with_null_probability (start_date end_date : ℤ) (null_prob : ℚ)
    (s : Rng) : String × Rng :=
  let p := nextU s
  if p.1 < null_prob then pyChoice "" nullTypes p.2
  else
    let qd := nextU p.2
    let days_between := (end_date - start_date).toNat
    let qh := nextU qd.2
    let qm := nextU qh.2
    let qs := nextU qm.2
    let qms := nextU qs.2
    (dateStr (start_date + pyRandintNat 0 days_between qd.1) ++ "T" ++
      pad2 (pyRandintNat 0 23 qh.1) ++ ":" ++ pad2 (pyRandintNat 0 59 qm.1) ++ ":" ++
      pad2 (pyRandintNat 0 59 qs.1) ++ "." ++ pad3 (pyRandintNat 0 999 qms.1) ++ "Z", qms.2)

def generate_realistic_score (s : Rng) : String × Rng :=
  generate_float_with_null_probability 0 100 0.02 s

def generate_realistic_rating (s : Rng) : String × Rng :=
  generate_float_with_null_probability 1 5 0.01 s

def generate_realistic_balance (s : Rng) : String × Rng :=
  generate_float_with_null_probability 0 10000 0.05 s

def generate_realistic_spend (s : Rng) : String × Rng :=
  generate_float_with_null_probability 0 500 0.03 s

def cities : List (ℚ × ℚ) :=
  [(40.7128, -74.0060), (34.0522, -118.2437), (51.5074, -0.1278), (48.8566, 2.3522),
   (52.5200, 13.4050), (35.6762, 139.6503), (41.9028, 12.4964), (-33.8688, 151.2093),
   (43.6532, -79.3832), (-23.5505, -46.6333)]

def generate_realistic_coordinates (s : Rng) : (ℚ × ℚ) × Rng :=
  let pc := pyChoice (0, 0) cities s
  let pl := nextU pc.2
  let pg := nextU pl.2
  ((pc.1.1 + pyUniform (-0.1) 0.1 pl.1, pc.1.2 + pyUniform (-0.1) 0.1 pg.1), pg.2)

/-- `str(int((np.random.exponential(15) + 5) * 60))`. -/
def generate_realistic_session_duration (s : Rng) : String × Rng :=
  let p := nextNp s
  (intStr (intTrunc ((p.1 + 5) * 60)), p.2)

/-- `str(int(np.random.exponential(20) + 5))`. -/
def generate_realistic_page_views (s : Rng) : String × Rng :=
  let p := nextNp s
  (intStr (intTrunc (p.1 + 5)), p.2)

def generate_realistic_conversion_rate (s : Rng) : String × Rng :=
  generate_float_with_null_probability 0 0.1 0.15 s

def generate_realistic_churn_probability (s : Rng) : String × Rng :=
  generate_float_with_null_probability 0 1 0.10 s

def first_names : List String :=
  ["john", "sarah", "mike", "anna", "pierre", "emma", "taro", "marco", "maria", "carlos"]

def last_names : List String :=
  ["doe", "smith", "wilson", "mueller", "dupont", "brown", "yamamoto", "rossi", "silva", "garcia"]

def generate_username (s : Rng) : String × Rng :=
  let p := nextU s
  if p.1 < 0.8 then
    let pf := pyChoice "" first_names p.2
    let pl := pyChoice "" last_names pf.2
    (pf.1 ++ "_" ++ pl.1, pl.2)
  else pyChoice "" nullTypes p.2

def timezones : List String :=
  ["UTC-8", "UTC-7", "UTC-6", "UTC-5", "UTC-4", "UTC-3", "UTC-2", "UTC-1", "UTC+0",
   "UTC+1", "UTC+2", "UTC+3", "UTC+4", "UTC+5", "UTC+6", "UTC+7", "UTC+8", "UTC+9",
   "UTC+10", "UTC+11", "UTC+12"]

def generate_timezone (s : Rng) : String × Rng :=
  pyChoice "" timezones s

def generate_app_version (s : Rng) : String × Rng :=
  let p1 := nextU s
  let p2 := nextU p1.2
  let p3 := nextU p2.2
  (natStr (pyRandintNat 1 3 p1.1) ++ "." ++ natStr (pyRandintNat 0 9 p2.1) ++ "." ++
    natStr (pyRandintNat 0 9 p3.1), p3.2)

/-- One generated data row; the fields are named after the header names
and are listed in the exact order the Python list returns them. -/
structure RowR where
  user_id : String
  age : String
  income : String
  is_active : String
  registration_date : String
  last_login_time : String
  premium_tier : String
  country_code : String
  score : String
  rating : String
  has_verified_email : String
  username : String
  created_at : String
  login_count : String
  subscription_type : String
  payment_method : String
  account_balance : String
  monthly_spend : String
  is_premium : String
  email_domain : String
  join_date : String
  timezone : String
  last_purchase_date : String
  referral_source : String
  device_type : String
  os_version : String
  app_version : String
  location_lat : String
  location_lng : String
  session_duration : String
  page_views : String
  conversion_rate : String
  churn_probability : String
  deriving DecidableEq

/-- The row as the Python function returns it: a list in field order. -/
def RowR.toList (r : RowR) : List String :=
  [r.user_id, r.age, r.income, r.is_active, r.registration_date, r.last_login_time,
   r.premium_tier, r.country_code, r.score, r.rating, r.has_verified_email, r.username,
   r.created_at, r.login_count, r.subscription_type, r.payment_method, r.account_balance,
   r.monthly_spend, r.is_premium, r.email_domain, r.join_date, r.timezone,
   r.last_purchase_date, r.referral_source, r.device_type, r.os_version, r.app_version,
   r.location_lat, r.location_lng, r.session_duration, r.page_views, r.conversion_rate,
   r.churn_probability]

/-- `generate_row(user_id)`: one full data row, with every random call in
the exact order of the source.  `start_date = date(2023,1,1)` and
`end_date = date(2023,12,31)` are day numbers 19358 and 19722. -/
def generate_row (user_id : ℕ) (s : Rng) : RowR × Rng :=
  let a1 := generate_realistic_age s
  let age : ℤ := max 18 (min 75 a1.1)
  let a2 := generate_realistic_income a1.2
  let income : ℤ := max 20000 (min 200000 a2.1)
  let a3 := generate_boolean_with_null_probability 0.02 a2.2
  let a4 := generate_boolean_with_null_probability 0.03 a3.2
  let a5 := generate_boolean_with_null_probability 0.02 a4.2
  let a6 := generate_date_with_null_probability 19358 19722 0.01 a5.2
  let registration_date := a6.1
  let join_date := registration_date
  let a7 := generate_time_with_null_probability 0.02 a6.2
  let a8 := generate_datetime_with_null_probability 19358 19722 0.01 a7.2
  let a9 := generate_datetime_with_null_probability 19358 19722 0.05 a8.2
  let a10 := pyChoice "" COUNTRIES a9.2
  let a11 := pyChoice "" PREMIUM_TIERS a10.2
  let a12 := pyChoice "" SUBSCRIPTION_TYPES a11.2
  let a13 := pyChoice "" PAYMENT_METHODS a12.2
  let a14 := pyChoice "" EMAIL_DOMAINS a13.2
  let a15 := pyChoice "" REFERRAL_SOURCES a14.2
  let a16 := pyChoice "" DEVICE_TYPES a15.2
  let device_type := a16.1
  let a17 := pyChoice "" ((OS_VERSIONS device_type).getD ["Unknown"]) a16.2
  let a18 := generate_realistic_score a17.2
  let a19 := generate_realistic_rating a18.2
  let a20 := generate_integer_with_null_probability 0 500 0.02 a19.2
  let a21 := generate_realistic_balance a20.2
  let a22 := generate_realistic_spend a21.2
  let a23 := generate_realistic_coordinates a22.2
  let a24 := generate_realistic_session_duration a23.2
  let a25 := generate_realistic_page_views a24.2
  let a26 := generate_realistic_conversion_rate a25.2
  let a27 := generate_realistic_churn_probability a26.2
  let a28 := generate_username a27.2
  let a29 := generate_timezone a28.2
  let a30 := generate_app_version a29.2
  ({ user_id := natStr user_id
     age := intStr age
     income := intStr income
     is_active := a3.1
     registration_date := registration_date
     last_login_time := a7.1
     premium_tier := a11.1
     country_code := a10.1
     score := a18.1
     rating := a19.1
     has_verified_email := a4.1
     username := a28.1
     created_at := a8.1
     login_count := a20.1
     subscription_type := a12.1
     payment_method := a13.1
     account_balance := a21.1
     monthly_spend := a22.1
     is_premium := a5.1
     email_domain := a14.1
     join_date := join_date
     timezone := a29.1
     last_purchase_date := a9.1
     referral_source := a15.1
     device_type := device_type
     os_version := a17.1
     app_version := a30.1
     location_lat := fmtDec 4 a23.1.1
     location_lng := fmtDec 4 a23.1.2
     session_duration := a24.1
     page_views := a25.1
     conversion_rate := a26.1
     churn_probability := a27.1 }, a30.2)

/-- The true header line's field names (schema order). -/
def headers : List String :=
  ["user_id", "age", "income", "is_active", "registration_date", "last_login_time",
   "premium_tier", "country_code", "score", "rating", "has_verified_email", "username",
   "created_at", "login_count", "subscription_type", "payment_method", "account_balance",
   "monthly_spend", "is_premium", "email_domain", "join_date", "timezone",
   "last_purchase_date", "referral_source", "device_type", "os_version", "app_version",
   "location_lat", "location_lng", "session_duration", "page_views", "conversion_rate",
   "churn_probability"]

def garbage_lines : List String :=
  ["This is a garbage line that should be ignored",
   "ooOOoooo We end here.",
   "Random text that doesn\x27t match the pattern",
   "ERROR: Invalid data format",
   "DEBUG: Processing row data"]

/-- `writer.writerow([''] * len(headers))`. -/
def emptyRow : List String := List.replicate headers.length ""

/-- `writer.writerow([g] + [''] * (len(headers) - 1))`. -/
def garbageRow (g : String) : List String :=
  g :: List.replicate (headers.length - 1) ""

/-- The records emitted for data row index `i` in the main loop: the data
row itself, then an empty row when `i % E == 0`, then a garbage row when
`i % G == 0`.  `rowOf i` is the data row written for index `i` and
`garb i` the garbage text `random.choice(garbage_lines)` picks there.
The source instantiates `E = 5000`, `G = 10000`. -/
def loopBlock (E G : ℕ) (rowOf : ℕ → List String) (garb : ℕ → String) (i : ℕ) :
    List (List String) :=
  [rowOf i] ++ (if i % E = 0 then [emptyRow] else []) ++
    (if i % G = 0 then [garbageRow (garb i)] else [])

/-- All records the main loop writes for data rows `1..N` (the source
instantiates `N = 100000`). -/
def emittedRecords (E G N : ℕ) (rowOf : ℕ → List String) (garb : ℕ → String) :
    List (List String) :=
  (List.range' 1 N).flatMap (loopBlock E G rowOf garb)

end GenLargeTestData

/-! ## `random.shuffle` (Fisher-Yates, as in CPython) -/

/-- `x[i], x[j] = x[j], x[i]` on a list (identity when out of bounds). -/
def swapL (l : List α) (i j : ℕ) : List α :=
  match l.get? i, l.get? j with
  | some a, some b => (l.set i b).set j a
  | _, _ => l

/-- The Fisher-Yates downward loop: for each `i` from `hi` down to `1`,
draw `j` uniform on `[0,i]` and swap positions `i` and `j`. -/
def shuffleSteps (l : List α) (i : ℕ) (s : Rng) : List α × Rng :=
  match i with
  | 0 => (l, s)
  | i + 1 =>
    let p := nextU s
    let j := (Int.toNat ⌊p.1 * ((i : ℚ) + 2)⌋) % (i + 2)
    shuffleSteps (swapL l (i + 1) j) i p.2

/-- `random.shuffle(x)`. -/
def pyShuffle (l : List α) (s : Rng) : List α × Rng :=
  shuffleSteps l (l.length - 1) s

/-- The id-shape invariant: every id handed out while the counter moved
from `lo` to `hi` is either a plain counter id in `[lo, hi)` or a
`_dup_{1..5}`-suffixed copy of such a counter id. -/
def idIn (lo hi : ℕ) (v : String) : Prop :=
  (∃ k, lo ≤ k ∧ k < hi ∧ v = natStr k) ∨
  (∃ k m, lo ≤ k ∧ k < hi ∧ 1 ≤ m ∧ m ≤ 5 ∧ v = natStr k ++ "_dup_" ++ natStr m)

/-! ## `test_data/generate_large_dataset.py` -/

namespace GenLargeDataset

def NUM_RECORDS : ℕ := 10000
def NUM_GROUPS : ℕ := 500
-- DUPLICATE_RATIO = 0.3 appears inline below.

def DEPARTMENTS : List String :=
  ["Engineering", "Marketing", "Sales", "HR", "Finance", "Operations", "Legal", "IT"]

def NAMES : List String :=
  ["John", "Jane", "Bob", "Alice", "Charlie", "David", "Emma", "Frank", "Grace", "Henry",
   "Ivy", "Jack", "Kate", "Liam", "Mia", "Noah", "Olivia", "Paul", "Quinn", "Ruby",
   "Sam", "Tina", "Uma", "Victor", "Wendy", "Xander", "Yara", "Zoe", "Alex", "Blake",
   "Casey", "Drew", "Eden", "Finley", "Gray", "Harper", "Indigo", "Jordan", "Kai", "Luna"]

/-- One record of the duplicate dataset.  `record_id` is stringly typed
because duplicates replace the integer id by a suffixed string (CSV
output stringifies both the same way). -/
structure Record where
  group_id : String
  name : String
  age : Option ℕ
  salary : Option ℕ
  is_active : Bool
  created_date : String
  department : Option String
  rating : Option ℚ
  record_id : String
  deriving DecidableEq, Inhabited

/-- Python `round(x, k)`: round to nearest at `k` decimals. -/
def roundTo (k : ℕ) (q : ℚ) : ℚ := (round (q * 10 ^ k) : ℚ) / 10 ^ k

/-- `generate_record(group_id, record_id)`.  `now` is the wall-clock day
number of `datetime.datetime.now()` — NOT part of the random state. -/
def generate_record (now : ℤ) (group_id : String) (record_id : ℕ) (s : Rng) :
    Record × Rng :=
  let p1 := pyChoice "" NAMES s
  let p2 := nextU p1.2
  let age := pyRandintNat 22 65 p2.1
  let p3 := nextU p2.2
  let salary := pyRandintNat 30000 150000 p3.1
  let p4 := pyChoice true [true, false] p3.2
  let p5 := pyChoice "" DEPARTMENTS p4.2
  let p6 := nextU p5.2
  let rating := roundTo 1 (pyUniform 1 5 p6.1)
  let p7 := nextU p6.2
  let days_ago := pyRandintNat 0 730 p7.1
  let created_date_str := dateStr (now - days_ago)
  let n1 := nextU p7.2
  let n2 := nextU n1.2
  let n3 := nextU n2.2
  let n4 := nextU n3.2
  ({ group_id := group_id
     name := p1.1
     age := if n1.1 < 0.1 then none else some age
     salary := if n2.1 < 0.05 then none else some salary
     is_active := p4.1
     created_date := created_date_str
     department := if n4.1 < 0.03 then none else some p5.1
     rating := if n3.1 < 0.08 then none else some rating
     record_id := natStr record_id }, n4.2)

/-- `create_duplicate_records(base_record, num_duplicates)`: copies of
the base record whose id gets the `_dup_{i+1}` suffix. -/
def create_duplicate_records (base_record : Record) (num_duplicates : ℕ) :
    List Record :=
  (List.range num_duplicates).map fun i =>
    { base_record with record_id := base_record.record_id ++ "_dup_" ++ natStr (i + 1) }

/-- The inner base-record loop of a group: `n` records with consecutive
ids starting at `rid`; returns the records, the advanced counter and the
advanced random state. -/
def genBaseRecords (now : ℤ) (gid : String) (rid n : ℕ) (s : Rng) :
    List Record × ℕ × Rng :=
  match n with
  | 0 => ([], rid, s)
  | n + 1 =>
    let p := generate_record now gid rid s
    let rest := genBaseRecords now gid (rid + 1) n p.2
    (p.1 :: rest.1, rest.2.1, rest.2.2)

/-- One iteration of the group loop of `generate_large_dataset`: group id
`f"GROUP_{group_num:03d}"`, a random group size in `[1,50]`, the base
records, and — for 30% of groups (DUPLICATE_RATIO) — `randint(1,5)`
duplicates of one randomly chosen base record, with the shared counter
then advanced past the duplicates. -/
def generate_group (now : ℤ) (group_num rid : ℕ) (s : Rng) :
    List Record × ℕ × Rng :=
  let group_id := "GROUP_" ++ pad3 group_num
  let pz := nextU s
  let group_size := pyRandintNat 1 50 pz.1
  let base := genBaseRecords now group_id rid group_size pz.2
  let group_records := base.1
  let rid1 := base.2.1
  let pd := nextU base.2.2
  if pd.1 < 0.3 then
    let pb := pyChoice default group_records pd.2
    let pn := nextU pb.2
    let num_duplicates := pyRandintNat 1 5 pn.1
    (group_records ++ create_duplicate_records pb.1 num_duplicates,
     rid1 + num_duplicates, pn.2)
  else (group_records, rid1, pd.2)

/-- The full group loop, for `cnt` groups starting at group number
`gnum` with the id counter at `rid`. -/
def genGroupsFrom (now : ℤ) (gnum cnt rid : ℕ) (s : Rng) :
    List Record × ℕ × Rng :=
  match cnt with
  | 0 => ([], rid, s)
  | c + 1 =>
    let g := generate_group now gnum rid s
    let rest := genGroupsFrom now (gnum + 1) c g.2.1 g.2.2
    (g.1 ++ rest.1, rest.2.1, rest.2.2)

/-- The record list of `generate_large_dataset()` before the final
shuffle (the counter starts at 1 and `NUM_GROUPS` groups are built). -/
def recordsPreShuffle (now : ℤ) (s : Rng) : List Record × Rng :=
  let r := genGroupsFrom now 0 NUM_GROUPS 1 s
  (r.1, r.2.2)

/-- `generate_large_dataset()`: the groups, then `random.shuffle`. -/
def generate_large_dataset (now : ℤ) (s : Rng) : List Record × Rng :=
  let r := recordsPreShuffle now s
  pyShuffle r.1 r.2

end GenLargeDataset

/-! ## Supporting lemmas -/

theorem validU_tail {l : List ℚ} (h : validU l) : validU l.tail :=
  fun r hr => h r (List.mem_of_mem_tail hr)

theorem validU_headD {l : List ℚ} (h : validU l) :
    0 ≤ l.headD 0 ∧ l.headD 0 < 1 := by
  cases l with
  | nil => exact ⟨le_refl 0, by norm_num⟩
  | cons a l => exact h a (List.mem_cons_self a l)

theorem pyChoiceVal_mem (d : α) {l : List α} (hl : l ≠ []) (r : ℚ) :
    pyChoiceVal d l r ∈ l := by
  unfold pyChoiceVal
  have hlen : 0 < l.length := List.length_pos.mpr hl
  have hidx : (Int.toNat ⌊r * l.length⌋) % l.length < l.length :=
    Nat.mod_lt _ hlen
  rw [List.getD_eq_getElem l d hidx]
  exact List.getElem_mem hidx

theorem digitVal_digitChar {d : ℕ} (h : d < 10) : digitVal (digitChar d) = d := by
  interval_cases d <;> rfl

theorem digitChar_isDigit (d : ℕ) : (digitChar d).isDigit := by
  by_cases h : d < 10
  · interval_cases d <;> rfl
  · unfold digitChar
    rw [List.getD_eq_default]
    · rfl
    · simp only [digitChars, List.length]
      omega

theorem parseDigits_append (l : List Char) (c : Char) :
    parseDigits (l ++ [c]) = 10 * parseDigits l + digitVal c := by
  unfold parseDigits
  rw [List.foldl_append]
  rfl

theorem parseDigits_toDigitsCore :
    ∀ fuel n, n < 10 ^ fuel → parseDigits (toDigitsCore fuel n) = n := by
  intro fuel
  induction fuel with
  | zero =>
    intro n hn
    interval_cases n
    rfl
  | succ fuel ih =>
    intro n hn
    unfold toDigitsCore
    by_cases h : n < 10
    · simp only [if_pos h]
      show 10 * 0 + digitVal (digitChar n) = n
      rw [digitVal_digitChar h]
      omega
    · simp only [if_neg h]
      rw [parseDigits_append, ih (n / 10) ?_, digitVal_digitChar (Nat.mod_lt _ (by norm_num))]
      · omega
      · rw [Nat.div_lt_iff_lt_mul (by norm_num)]
        calc n < 10 ^ (fuel + 1) := hn
        _ = 10 ^ fuel * 10 := by ring

theorem parseDigits_natStr (n : ℕ) : parseDigits (natStr n).data = n := by
  have h : n < 10 ^ (n + 1) := by
    calc n < 10 ^ n := Nat.lt_pow_self (by norm_num) n
    _ ≤ 10 ^ (n + 1) := Nat.pow_le_pow_right (by norm_num) (Nat.le_succ n)
  exact parseDigits_toDigitsCore (n + 1) n h

theorem natStr_injective : Function.Injective natStr := by
  intro m n h
  have hd : (natStr m).data = (natStr n).data := by rw [h]
  have := parseDigits_natStr m
  rw [hd, parseDigits_natStr n] at this
  omega

theorem toDigitsCore_ne_nil (fuel n : ℕ) (h : 0 < fuel) :
    toDigitsCore fuel n ≠ [] := by
  cases fuel with
  | zero => omega
  | succ fuel =>
    unfold toDigitsCore
    by_cases h10 : n < 10
    · simp [h10]
    · simp [h10]

theorem natStr_ne_empty (n : ℕ) : natStr n ≠ "" := by
  unfold natStr
  intro h
  have : toDigitsCore (n + 1) n = [] := congrArg String.data h
  exact toDigitsCore_ne_nil (n + 1) n (Nat.succ_pos n) this

theorem toDigitsCore_isDigit :
    ∀ fuel n c, c ∈ toDigitsCore fuel n → c.isDigit := by
  intro fuel
  induction fuel with
  | zero => intro n c hc; simp [toDigitsCore] at hc
  | succ fuel ih =>
    intro n c hc
    unfold toDigitsCore at hc
    by_cases h : n < 10
    · simp only [if_pos h, List.mem_singleton] at hc
      rw [hc]; exact digitChar_isDigit n
    · simp only [if_neg h, List.mem_append, List.mem_singleton] at hc
      rcases hc with hc | hc
      · exact ih (n / 10) c hc
      · rw [hc]; exact digitChar_isDigit (n % 10)

theorem natStr_isDigit (n : ℕ) {c : Char} (hc : c ∈ (natStr n).data) : c.isDigit :=
  toDigitsCore_isDigit (n + 1) n c hc

theorem natStr_all_digits (n : ℕ) : (natStr n).data.all Char.isDigit = true := by
  rw [List.all_eq_true]
  intro c hc
  exact natStr_isDigit n hc

theorem dateStr_epoch : dateStr 0 = "1970-01-01" := by decide

theorem pyRandintNat_mem (a b : ℕ) (r : ℚ) (hab : a ≤ b) :
    a ≤ pyRandintNat a b r ∧ pyRandintNat a b r ≤ b := by
  unfold pyRandintNat
  have h : (Int.toNat ⌊r * ((b : ℚ) - a + 1)⌋) % (b - a + 1) < b - a + 1 :=
    Nat.mod_lt _ (by omega)
  omega

theorem string_append_left_cancel (a : String) {b c : String} (h : a ++ b = a ++ c) : b = c := by
  have hd : a.data ++ b.data = a.data ++ c.data := by
    have := congrArg String.data h
    simpa using this
  have h2 := List.append_cancel_left hd
  cases b; cases c
  exact congrArg String.mk h2

/-- `random.randint(a,b)` at the draw 0 returns the lower bound. -/
theorem pyRandintNat_zero (a b : ℕ) : pyRandintNat a b 0 = a := by
  unfold pyRandintNat
  norm_num

/-- `random.choice(l)` at the draw 0 returns the first element. -/
theorem pyChoiceVal_zero (d : α) (l : List α) : pyChoiceVal d l 0 = l.getD 0 d := by
  unfold pyChoiceVal
  norm_num

/-- `random.uniform(a,b)` at the draw 0 returns the lower bound. -/
theorem pyUniform_zero (a b : ℚ) : pyUniform a b 0 = a := by
  unfold pyUniform
  ring

namespace GenLargeDataset

/-- C1, code_bug: the duplicate-dataset generator is NOT a function of
the random seed alone.  `generate_record` derives `created_date` from
`datetime.datetime.now()`; with one and the same random stream (here:
the all-zeros stream), a run whose process start falls on day 0 and a
run on day 1 produce records that differ (in `created_date`), hence
CSV output that is not byte-identical.  This contradicts the declared
intent (`# Set random seed for reproducibility`) and the spec's
determinism property. -/
theorem generate_record_depends_on_wall_clock :
    (generate_record 0 "GROUP_000" 1 ⟨[], []⟩).1 ≠
      (generate_record 1 "GROUP_000" 1 ⟨[], []⟩).1 ∧
    (generate_record 0 "GROUP_000" 1 ⟨[], []⟩).1.created_date = "1970-01-01" ∧
    (generate_record 1 "GROUP_000" 1 ⟨[], []⟩).1.created_date = "1970-01-02" := by
  have hd : ∀ now : ℤ, (generate_record now "GROUP_000" 1 ⟨[], []⟩).1.created_date
      = dateStr (now - (pyRandintNat 0 730 0 : ℕ)) := fun _ => rfl
  have hz : ∀ now : ℤ, now - (pyRandintNat 0 730 (0 : ℚ) : ℕ) = now := by
    intro now
    rw [pyRandintNat_zero]
    norm_num
  refine ⟨?_, ?_, ?_⟩
  · intro h
    have hc := congrArg Record.created_date h
    rw [hd 0, hd 1, hz 0, hz 1] at hc
    exact absurd hc (by decide)
  · rw [hd 0, hz 0]; decide
  · rw [hd 1, hz 1]; decide

/-- C2: the `i`-th duplicate copy (1-based: suffix index `i+1` for
0-based `i`) agrees with the base record on every field except
`record_id`, its id is the base id with the `_dup_{i+1}` suffix, and
distinct copies of the same base have distinct ids. -/
theorem duplicate_records_spec (base : Record) (n i : ℕ) (hi : i < n) :
    ((create_duplicate_records base n).getD i default).group_id = base.group_id ∧
    ((create_duplicate_records base n).getD i default).name = base.name ∧
    ((create_duplicate_records base n).getD i default).age = base.age ∧
    ((create_duplicate_records base n).getD i default).salary = base.salary ∧
    ((create_duplicate_records base n).getD i default).is_active = base.is_active ∧
    ((create_duplicate_records base n).getD i default).created_date = base.created_date ∧
    ((create_duplicate_records base n).getD i default).department = base.department ∧
    ((create_duplicate_records base n).getD i default).rating = base.rating ∧
    ((create_duplicate_records base n).getD i default).record_id =
      base.record_id ++ "_dup_" ++ natStr (i + 1) ∧
    ∀ j, j < n → j ≠ i →
      ((create_duplicate_records base n).getD j default).record_id ≠
        ((create_duplicate_records base n).getD i default).record_id := by
  have hlen : (create_duplicate_records base n).length = n := by
    simp [create_duplicate_records]
  have hget : ∀ k, k < n → (create_duplicate_records base n).getD k default =
      { base with record_id := base.record_id ++ "_dup_" ++ natStr (k + 1) } := by
    intro k hk
    rw [List.getD_eq_getElem _ _ (by omega)]
    simp [create_duplicate_records]
  rw [hget i hi]
  refine ⟨rfl, rfl, rfl, rfl, rfl, rfl, rfl, rfl, rfl, ?_⟩
  intro j hj hji
  rw [hget j hj]
  intro h
  simp only at h
  have h2 : natStr (j + 1) = natStr (i + 1) :=
    string_append_left_cancel (base.record_id ++ "_dup_") h
  exact hji (by have := natStr_injective h2; omega)

/-- Witness for C2 at `base = default`, `n = 2`, `i = 0`. -/
theorem duplicate_records_spec_witness :
    (0 : ℕ) < 2 ∧
    ((create_duplicate_records default 2).getD 0 default).record_id =
      (default : Record).record_id ++ "_dup_" ++ natStr 1 :=
  ⟨by norm_num, (duplicate_records_spec default 2 0 (by norm_num)).2.2.2.2.2.2.2.2.1⟩

end GenLargeDataset

namespace GenLargeTestData

theorem osVersions_getD_ne_nil (d : String) :
    (OS_VERSIONS d).getD ["Unknown"] ≠ [] := by
  unfold OS_VERSIONS
  repeat' split
  all_goals simp

/-- C9: the `join_date` field of every generated row is the very value
already sampled for `registration_date` (the assignment
`join_date = registration_date`), never an independent redraw — in
particular also when the registration date came out as a null
sentinel. -/
theorem join_date_eq_registration_date (user_id : ℕ) (s : Rng) :
    (generate_row user_id s).1.join_date =
      (generate_row user_id s).1.registration_date := rfl

/-- C3: in every generated row the device type is one of the five
device types, and the OS version is a member of the OS-version list the
`OS_VERSIONS` mapping assigns to that row's device type (the dict is
total on the sampled device types, so the `['Unknown']` default never
fires).  In the embedding the OS draw is sequenced strictly after the
device-type draw, as in the source. -/
theorem os_version_matches_device_type (user_id : ℕ) (s : Rng) :
    (generate_row user_id s).1.device_type ∈ DEVICE_TYPES ∧
    (generate_row user_id s).1.os_version ∈
      (OS_VERSIONS (generate_row user_id s).1.device_type).getD ["Unknown"] := by
  constructor
  · simp only [generate_row, pyChoice]
    exact pyChoiceVal_mem _ (by decide) _
  · simp only [generate_row, pyChoice]
    exact pyChoiceVal_mem _ (osVersions_getD_ne_nil _) _

/-- C6, counterexample: incomes ARE clamped above.  With the log-normal
oracle sample 300 (i.e. `np.random.lognormal(10.5,0.5) = 300`), the raw
value `int(300 * 1000) = 300000`, but the row's income field is
`"200000"`: the upper clamp at 200000 modified the sample. -/
theorem income_upper_clamp_counterexample :
    (generate_row 1 ⟨[], [0, 300]⟩).1.income = "200000" ∧
    intStr (intTrunc ((300 : ℚ) * 1000)) = "300000" ∧
    (generate_row 1 ⟨[], [0, 300]⟩).1.income ≠ intStr (intTrunc ((300 : ℚ) * 1000)) := by
  have h1 : (generate_row 1 ⟨[], [0, 300]⟩).1.income
      = intStr (max 20000 (min 200000 (intTrunc ((300 : ℚ) * 1000)))) := rfl
  have h2 : intTrunc ((300 : ℚ) * 1000) = 300000 := by
    unfold intTrunc
    norm_num
  refine ⟨?_, ?_, ?_⟩
  · rw [h1, h2]; decide
  · rw [h2]; decide
  · rw [h1, h2]; decide

/-! ### Stream-validity preservation through the generators -/

theorem validU_pyChoice (d : α) (l : List α) {s : Rng} (h : validU s.u) :
    validU (pyChoice d l s).2.u := validU_tail h

theorem validU_age {s : Rng} (h : validU s.u) :
    validU (generate_realistic_age s).2.u := h

theorem validU_income {s : Rng} (h : validU s.u) :
    validU (generate_realistic_income s).2.u := h

theorem validU_gbwnp (p : ℚ) {s : Rng} (h : validU s.u) :
    validU (generate_boolean_with_null_probability p s).2.u := by
  unfold generate_boolean_with_null_probability
  dsimp only
  split <;> exact validU_tail (validU_tail h)

theorem validU_gfwnp (m M p : ℚ) {s : Rng} (h : validU s.u) :
    validU (generate_float_with_null_probability m M p s).2.u := by
  unfold generate_float_with_null_probability
  dsimp only
  split <;> exact validU_tail (validU_tail h)

theorem validU_score {s : Rng} (h : validU s.u) :
    validU (generate_realistic_score s).2.u := validU_gfwnp 0 100 0.02 h

theorem validU_gdate (a b : ℤ) (p : ℚ) {s : Rng} (h : validU s.u) :
    validU (generate_date_with_null_probability a b p s).2.u := by
  unfold generate_date_with_null_probability
  dsimp only
  split <;> exact validU_tail (validU_tail h)

theorem validU_gtime (p : ℚ) {s : Rng} (h : validU s.u) :
    validU (generate_time_with_null_probability p s).2.u := by
  unfold generate_time_with_null_probability
  dsimp only
  split
  · exact validU_tail (validU_tail h)
  · exact validU_tail (validU_tail (validU_tail (validU_tail h)))

theorem validU_gdatetime (a b : ℤ) (p : ℚ) {s : Rng} (h : validU s.u) :
    validU (generate_datetime_with_null_probability a b p s).2.u := by
  unfold generate_datetime_with_null_probability
  dsimp only
  split
  · exact validU_tail (validU_tail h)
  · exact validU_tail (validU_tail (validU_tail (validU_tail (validU_tail
      (validU_tail h)))))

/-- The non-null branch of the float generator produces a value inside
the declared [min, max] domain, rendered at two decimals. -/
theorem gfwnp_cases (m M p : ℚ) (s : Rng) (hu : validU s.u) (hmM : m ≤ M) :
    (generate_float_with_null_probability m M p s).1 ∈ nullTypes ∨
    ∃ q : ℚ, m ≤ q ∧ q ≤ M ∧
      (generate_float_with_null_probability m M p s).1 = fmtDec 2 q := by
  unfold generate_float_with_null_probability
  dsimp only
  split
  · left
    exact pyChoiceVal_mem _ (by decide) _
  · right
    refine ⟨pyUniform m M (nextU (nextU s).2).1, ?_, ?_, rfl⟩
    · have hr : 0 ≤ (nextU (nextU s).2).1 ∧ (nextU (nextU s).2).1 < 1 :=
        validU_headD (validU_tail hu)
      unfold pyUniform
      nlinarith [hr.1, hr.2]
    · have hr : 0 ≤ (nextU (nextU s).2).1 ∧ (nextU (nextU s).2).1 < 1 :=
        validU_headD (validU_tail hu)
      unfold pyUniform
      nlinarith [hr.1, hr.2]

/-- Specialization to the rating generator: a null sentinel or a value
whose rounded two-decimal rendering lies in [1.00, 5.00]. -/
theorem rating_cases {s : Rng} (hu : validU s.u) :
    (generate_realistic_rating s).1 ∈ nullTypes ∨
    ∃ c : ℤ, 100 ≤ c ∧ c ≤ 500 ∧ (generate_realistic_rating s).1 = decStr 2 c := by
  rcases gfwnp_cases 1 5 0.01 s hu (by norm_num) with h | ⟨q, hq1, hq5, heq⟩
  · exact Or.inl h
  · right
    refine ⟨round (q * (10 : ℚ) ^ 2), ?_, ?_, heq⟩
    · rw [round_eq, Int.le_floor]
      push_cast
      nlinarith
    · rw [round_eq]
      have : (⌊q * (10 : ℚ) ^ 2 + 1 / 2⌋ : ℤ) < 501 := by
        rw [Int.floor_lt]
        push_cast
        nlinarith
      omega

/-- C8: in every generated row the age field is the normal sample
truncated to an integer and clamped into [18, 75] (clamping, not
resampling: out-of-range samples land exactly on the bounds), and the
rating field is either a null sentinel or a two-decimal value in
[1.00, 5.00]. -/
theorem age_and_rating_within_domain (user_id : ℕ) (s : Rng) (hu : validU s.u) :
    (generate_row user_id s).1.age =
      intStr (max 18 (min 75 (intTrunc (s.np.headD 0)))) ∧
    (18 : ℤ) ≤ max 18 (min 75 (intTrunc (s.np.headD 0))) ∧
    max 18 (min 75 (intTrunc (s.np.headD 0))) ≤ 75 ∧
    ((generate_row user_id s).1.rating ∈ nullTypes ∨
      ∃ c : ℤ, 100 ≤ c ∧ c ≤ 500 ∧ (generate_row user_id s).1.rating = decStr 2 c) := by
  refine ⟨rfl, le_max_left _ _, max_le (by norm_num) (min_le_left _ _), ?_⟩
  simp only [generate_row]
  apply rating_cases
  apply validU_score
  apply validU_pyChoice
  apply validU_pyChoice
  apply validU_pyChoice
  apply validU_pyChoice
  apply validU_pyChoice
  apply validU_pyChoice
  apply validU_pyChoice
  apply validU_pyChoice
  apply validU_gdatetime
  apply validU_gdatetime
  apply validU_gtime
  apply validU_gdate
  apply validU_gbwnp
  apply validU_gbwnp
  apply validU_gbwnp
  apply validU_income
  exact validU_age hu

/-- Witness for C8 at the exhausted stream (every draw is 0, a legal
[0,1) draw). -/
theorem age_and_rating_within_domain_witness :
    validU (Rng.mk [] []).u ∧
    ((generate_row 1 ⟨[], []⟩).1.rating ∈ nullTypes ∨
      ∃ c : ℤ, 100 ≤ c ∧ c ≤ 500 ∧ (generate_row 1 ⟨[], []⟩).1.rating = decStr 2 c) :=
  ⟨by decide, (age_and_rating_within_domain 1 ⟨[], []⟩ (by decide)).2.2.2⟩

/-- C4: on each invocation the null-injecting float generator first
draws one uniform [0,1) number (the head of the stream); if it is below
the null probability the result is one of the five sentinels — picked
by `random.choice` from the next draw, independent of the wrapped
value generator's min/max parameters (that generator is never
invoked) — and the five sentinels are pairwise distinct, so a uniform
index yields a uniform sentinel; otherwise the result is exactly the
wrapped generator's value. -/
theorem null_injection_spec (min_val max_val null_prob : ℚ) (s : Rng) :
    ((nextU s).1 < null_prob →
      (generate_float_with_null_probability min_val max_val null_prob s).1
          = pyChoiceVal "" nullTypes (nextU (nextU s).2).1 ∧
        (generate_float_with_null_probability min_val max_val null_prob s).1 ∈ nullTypes ∧
        ∀ m M : ℚ, (generate_float_with_null_probability m M null_prob s).1
          = (generate_float_with_null_probability min_val max_val null_prob s).1) ∧
    (¬ (nextU s).1 < null_prob →
      (generate_float_with_null_probability min_val max_val null_prob s).1
        = fmtDec 2 (pyUniform min_val max_val (nextU (nextU s).2).1)) ∧
    (∀ j : Fin 5, pyChoiceVal "" nullTypes (((j : ℕ) : ℚ) / 5) = nullTypes.getD j "") ∧
    Function.Injective (fun j : Fin 5 => nullTypes.getD j "") := by
  refine ⟨?_, ?_, ?_, ?_⟩
  · intro h
    refine ⟨?_, ?_, ?_⟩
    · unfold generate_float_with_null_probability
      rw [if_pos h]
      rfl
    · unfold generate_float_with_null_probability
      rw [if_pos h]
      exact pyChoiceVal_mem _ (by decide) _
    · intro m M
      unfold generate_float_with_null_probability
      rw [if_pos h, if_pos h]
  · intro h
    unfold generate_float_with_null_probability
    rw [if_neg h]
  · intro j
    fin_cases j <;> (norm_num [pyChoiceVal, nullTypes] <;> decide)
  · decide

/-- Witness for C4: probability 1/2, stream `[0,0]`; the head draw 0 is
below 1/2 and the produced value is a null sentinel. -/
theorem null_injection_spec_witness :
    (nextU (⟨[0, 0], []⟩ : Rng)).1 < (1 / 2 : ℚ) ∧
    (generate_float_with_null_probability 0 100 (1 / 2) ⟨[0, 0], []⟩).1 ∈ nullTypes :=
  ⟨by norm_num [nextU], ((null_injection_spec 0 100 (1 / 2) ⟨[0, 0], []⟩).1
    (by norm_num [nextU])).2.1⟩

/-- C6, amended: every generated row's income is the log-normal sample
times 1000, truncated to an integer and then clamped to the range
[20000, 200000]; in particular a fixed upper bound of 200000 IS imposed
on incomes. -/
theorem income_is_clamped_lognormal (user_id : ℕ) (s : Rng) :
    (generate_row user_id s).1.income =
      intStr (max 20000 (min 200000 (intTrunc (s.np.tail.headD 0 * 1000)))) ∧
    (20000 : ℤ) ≤ max 20000 (min 200000 (intTrunc (s.np.tail.headD 0 * 1000))) ∧
    max 20000 (min 200000 (intTrunc (s.np.tail.headD 0 * 1000))) ≤ (200000 : ℤ) := by
  refine ⟨rfl, le_max_left _ _, max_le (by norm_num) (min_le_left _ _)⟩

/-- The first field of every real data row is `str(user_id)`, so the
`rowOf` hypotheses of the serializer theorems below are satisfied by the
actual row generator. -/
theorem generate_row_head (i : ℕ) (s : Rng) :
    ((generate_row i s).1.toList).headD "" = natStr i := rfl

theorem natStr_notin_garbage (n : ℕ) : natStr n ∉ garbage_lines := by
  intro h
  have hall := natStr_all_digits n
  simp only [garbage_lines, List.mem_cons, List.not_mem_nil, or_false] at h
  rcases h with h | h | h | h | h <;> (rw [h] at hall; exact absurd hall (by decide))

theorem garbage_ne_empty : ∀ g ∈ garbage_lines, g ≠ "" := by decide

theorem empty_notin_garbage : "" ∉ garbage_lines := by decide

theorem headD_emptyRow : emptyRow.headD "" = "" := by decide

/-- Records counted per loop iteration: one empty row exactly at the
multiples of `E`. -/
theorem count_emptyRow_loopBlock (E G i : ℕ) (rowOf : ℕ → List String)
    (garb : ℕ → String) (hrow : (rowOf i).headD "" = natStr i)
    (hgarb : garb i ∈ garbage_lines) :
    (loopBlock E G rowOf garb i).count emptyRow = if i % E = 0 then 1 else 0 := by
  have hne : rowOf i ≠ emptyRow := by
    intro h
    rw [h, headD_emptyRow] at hrow
    exact natStr_ne_empty i hrow.symm
  have hgne : garbageRow (garb i) ≠ emptyRow := by
    intro h
    have : (garbageRow (garb i)).headD "" = emptyRow.headD "" := by rw [h]
    rw [headD_emptyRow] at this
    exact garbage_ne_empty (garb i) hgarb this
  unfold loopBlock
  by_cases hE : i % E = 0 <;> by_cases hG : i % G = 0 <;>
    simp [hE, hG, List.count_append, List.count_cons, hne, hgne]

/-- Records counted per loop iteration: one garbage row exactly at the
multiples of `G`. -/
theorem count_garbage_loopBlock (E G i : ℕ) (rowOf : ℕ → List String)
    (garb : ℕ → String) (hrow : (rowOf i).headD "" = natStr i)
    (hgarb : garb i ∈ garbage_lines) :
    (loopBlock E G rowOf garb i).countP (fun r => decide (r.headD "" ∈ garbage_lines))
      = if i % G = 0 then 1 else 0 := by
  have hne : (rowOf i).headD "" ∉ garbage_lines := by
    rw [hrow]
    exact natStr_notin_garbage i
  have hg : (garbageRow (garb i)).headD "" ∈ garbage_lines := hgarb
  have hee : emptyRow.headD "" ∉ garbage_lines := by decide
  rw [List.headD_eq_head?] at hne hg hee
  unfold loopBlock
  by_cases hE : i % E = 0 <;> by_cases hG : i % G = 0 <;>
    simp [hE, hG, List.countP_append, List.countP_cons, hne, hg, hee]

/-- C5, amended: for data rows `1..N` with empty-row interval `E` and
garbage-line interval `G`, the serializer emits exactly `N / E` fully
empty rows and exactly `N / G` garbage lines; the empty row is written
immediately after the data row whose index is the multiple of `E`, and
the garbage line after the data row whose index is the multiple of `G`,
preceded by the empty row whenever that index is also a multiple of
`E`. -/
theorem emitted_counts (E G N : ℕ) (rowOf : ℕ → List String) (garb : ℕ → String)
    (hrow : ∀ i, 1 ≤ i → i ≤ N → (rowOf i).headD "" = natStr i)
    (hgarb : ∀ i, 1 ≤ i → i ≤ N → garb i ∈ garbage_lines) :
    (emittedRecords E G N rowOf garb).count emptyRow = N / E ∧
    (emittedRecords E G N rowOf garb).countP
      (fun r => decide (r.headD "" ∈ garbage_lines)) = N / G := by
  induction N with
  | zero => simp [emittedRecords]
  | succ N ih =>
    have hsplit : emittedRecords E G (N + 1) rowOf garb
        = emittedRecords E G N rowOf garb ++ loopBlock E G rowOf garb (N + 1) := by
      unfold emittedRecords
      rw [List.range'_concat, List.flatMap_append]
      simp only [one_mul, List.flatMap_cons, List.flatMap_nil, List.append_nil]
      rw [Nat.add_comm 1 N]
    have ihh := ih (fun i h1 h2 => hrow i h1 (by omega))
      (fun i h1 h2 => hgarb i h1 (by omega))
    have hrN := hrow (N + 1) (by omega) (by omega)
    have hgN := hgarb (N + 1) (by omega) (by omega)
    constructor
    · rw [hsplit, List.count_append, ihh.1,
        count_emptyRow_loopBlock E G (N + 1) rowOf garb hrN hgN,
        Nat.succ_div]
      have : E ∣ N + 1 ↔ (N + 1) % E = 0 := Nat.dvd_iff_mod_eq_zero
      by_cases h : (N + 1) % E = 0 <;> simp [h, this]
    · rw [hsplit, List.countP_append, ihh.2,
        count_garbage_loopBlock E G (N + 1) rowOf garb hrN hgN,
        Nat.succ_div]
      have : G ∣ N + 1 ↔ (N + 1) % G = 0 := Nat.dvd_iff_mod_eq_zero
      by_cases h : (N + 1) % G = 0 <;> simp [h, this]

/-- Witness for C5 at the claim's instance `N = 20000`, `E = 5000`,
`G = 10000`: exactly 4 empty rows and exactly 2 garbage lines. -/
theorem emitted_counts_witness :
    (emittedRecords 5000 10000 20000 (fun i => [natStr i])
      (fun _ => "ooOOoooo We end here.")).count emptyRow = 4 ∧
    (emittedRecords 5000 10000 20000 (fun i => [natStr i])
      (fun _ => "ooOOoooo We end here.")).countP
      (fun r => decide (r.headD "" ∈ garbage_lines)) = 2 := by
  have h := emitted_counts 5000 10000 20000 (fun i => [natStr i])
    (fun _ => "ooOOoooo We end here.")
    (fun i _ _ => rfl)
    (fun i _ _ => (by decide : "ooOOoooo We end here." ∈ garbage_lines))
  exact ⟨h.1.trans (by norm_num), h.2.trans (by norm_num)⟩

/-- C5, counterexample to "each inserted immediately after the data row
whose 1-based index is the corresponding multiple of the interval":
with `E = 1`, `G = 2` and `N = 2` data rows, the record written
immediately after data row 2 (a multiple of the garbage interval) is
the empty row, and the garbage line only follows one position later —
whenever the garbage index is also an empty-row multiple (as in the
spec's 5000/10000 scenario), the garbage line is NOT immediately after
its data row. -/
theorem garbage_not_immediately_after_data_row :
    (emittedRecords 1 2 2 (fun i => [natStr i])
      (fun _ => "ooOOoooo We end here.")).getD 2 [] = [natStr 2] ∧
    (emittedRecords 1 2 2 (fun i => [natStr i])
      (fun _ => "ooOOoooo We end here.")).getD 3 [] = emptyRow ∧
    (emittedRecords 1 2 2 (fun i => [natStr i])
      (fun _ => "ooOOoooo We end here.")).getD 4 []
        = garbageRow "ooOOoooo We end here." ∧
    emptyRow ≠ garbageRow "ooOOoooo We end here." := by
  refine ⟨?_, ?_, ?_, ?_⟩ <;> decide

/-- C7, counterexample: a garbage line is not a single-field record —
it is padded to the full header width (33 fields). -/
theorem garbage_row_is_full_width_counterexample :
    (garbageRow "This is a garbage line that should be ignored").length = 33 ∧
    (garbageRow "This is a garbage line that should be ignored").length ≠ 1 := by
  refine ⟨?_, ?_⟩ <;> decide

/-- C7, amended: every garbage line the serializer injects is a
full-width record of `len(headers) = 33` fields: the first field is the
free garbage text and the remaining 32 fields are empty strings
(`[random.choice(garbage_lines)] + [''] * (len(headers) - 1)`). -/
theorem garbage_rows_full_width (E G N : ℕ) (rowOf : ℕ → List String)
    (garb : ℕ → String) (i : ℕ) (h1 : 1 ≤ i) (h2 : i ≤ N) (hG : i % G = 0) :
    garbageRow (garb i) ∈ emittedRecords E G N rowOf garb ∧
    (garbageRow (garb i)).length = headers.length ∧
    (garbageRow (garb i)).headD "" = garb i ∧
    (garbageRow (garb i)).tail = List.replicate (headers.length - 1) "" := by
  refine ⟨?_, by simp [garbageRow, headers], rfl, rfl⟩
  unfold emittedRecords
  rw [List.mem_flatMap]
  refine ⟨i, ?_, ?_⟩
  · rw [List.mem_range'_1]
    omega
  · unfold loopBlock
    rw [hG]
    by_cases hE : i % E = 0 <;> simp [hE]

/-- Witness for C7 at `i = 10`, `G = 5`, `N = 20`. -/
theorem garbage_rows_full_width_witness :
    ((1 : ℕ) ≤ 10 ∧ (10 : ℕ) ≤ 20 ∧ (10 : ℕ) % 5 = 0) ∧
    garbageRow ((fun _ => "ERROR: Invalid data format") 10)
      ∈ emittedRecords 3 5 20 (fun i => [natStr i])
        (fun _ => "ERROR: Invalid data format") :=
  ⟨⟨by norm_num, by norm_num, by norm_num⟩,
    (garbage_rows_full_width 3 5 20 (fun i => [natStr i])
      (fun _ => "ERROR: Invalid data format") 10 (by norm_num) (by norm_num)
      (by norm_num)).1⟩

end GenLargeTestData

/-! ## The shuffle is a permutation -/

theorem cons_set_perm : ∀ (t : List α) (k : ℕ) (x b : α),
    t.get? k = some b → (b :: t.set k x).Perm (x :: t) := by
  intro t
  induction t with
  | nil => intro k x b hb; simp at hb
  | cons y t' ih =>
    intro k x b hb
    cases k with
    | zero =>
      simp only [List.get?_cons_zero, Option.some_inj] at hb
      rw [List.set_cons_zero, ← hb]
      exact List.Perm.swap x y t'
    | succ k =>
      simp only [List.get?_cons_succ] at hb
      rw [List.set_cons_succ]
      have s1 : (b :: y :: t'.set k x).Perm (y :: b :: t'.set k x) := List.Perm.swap y b _
      have s2 : (y :: b :: t'.set k x).Perm (y :: x :: t') := (ih k x b hb).cons y
      have s3 : (y :: x :: t').Perm (x :: y :: t') := List.Perm.swap x y t'
      exact (s1.trans s2).trans s3

theorem set_set_perm : ∀ (l : List α) (i j : ℕ) (a b : α),
    l.get? i = some a → l.get? j = some b → ((l.set i b).set j a).Perm l := by
  intro l
  induction l with
  | nil => intro i j a b hi _; simp at hi
  | cons x t ih =>
    intro i j a b hi hj
    cases i with
    | zero =>
      simp only [List.get?_cons_zero, Option.some_inj] at hi
      cases j with
      | zero =>
        simp only [List.get?_cons_zero, Option.some_inj] at hj
        rw [List.set_cons_zero, List.set_cons_zero, hi]
      | succ j =>
        simp only [List.get?_cons_succ] at hj
        rw [List.set_cons_zero, List.set_cons_succ, hi]
        exact cons_set_perm t j a b hj
    | succ i =>
      simp only [List.get?_cons_succ] at hi
      cases j with
      | zero =>
        simp only [List.get?_cons_zero, Option.some_inj] at hj
        rw [List.set_cons_succ, List.set_cons_zero, hj]
        exact cons_set_perm t i b a hi
      | succ j =>
        simp only [List.get?_cons_succ] at hj
        rw [List.set_cons_succ, List.set_cons_succ]
        exact (ih i j a b hi hj).cons x

theorem swapL_perm (l : List α) (i j : ℕ) : (swapL l i j).Perm l := by
  unfold swapL
  cases hi : l.get? i with
  | none => exact List.Perm.refl l
  | some a =>
    cases hj : l.get? j with
    | none => exact List.Perm.refl l
    | some b => exact set_set_perm l i j a b hi hj

theorem shuffleSteps_perm : ∀ (i : ℕ) (l : List α) (s : Rng),
    ((shuffleSteps l i s).1).Perm l := by
  intro i
  induction i with
  | zero => intro l s; exact List.Perm.refl l
  | succ i ih =>
    intro l s
    unfold shuffleSteps
    exact (ih _ _).trans (swapL_perm l (i + 1) _)

theorem pyShuffle_perm (l : List α) (s : Rng) : ((pyShuffle l s).1).Perm l :=
  shuffleSteps_perm (l.length - 1) l s

/-! ## Shape of the duplicate-dataset record ids -/

theorem natStr_data_lt10 {m : ℕ} (hm : m < 10) : (natStr m).data = [digitChar m] := by
  show toDigitsCore (m + 1) m = [digitChar m]
  simp only [toDigitsCore, if_pos hm]

/-- A plain counter id (all digits) is never a `_dup_`-suffixed id. -/
theorem natStr_ne_dup (k k' m : ℕ) :
    natStr k ≠ natStr k' ++ "_dup_" ++ natStr m := by
  intro h
  have hd := congrArg String.data h
  simp only [String.data_append] at hd
  have hu : '_' ∈ (natStr k).data := by
    rw [hd]
    simp
  have := natStr_isDigit k hu
  exact absurd this (by decide)

/-- `_dup_`-suffixed ids with single-digit suffix indices are equal only
when base id and suffix index agree. -/
theorem dup_id_inj (k k' m m' : ℕ) (hm : m < 10) (hm' : m' < 10)
    (h : natStr k ++ "_dup_" ++ natStr m = natStr k' ++ "_dup_" ++ natStr m') :
    k = k' ∧ m = m' := by
  have hd := congrArg String.data h
  simp only [String.data_append] at hd
  rw [natStr_data_lt10 hm, natStr_data_lt10 hm', List.append_assoc, List.append_assoc] at hd
  have hlen : ("_dup_".data ++ [digitChar m]).length = ("_dup_".data ++ [digitChar m']).length := by
    simp
  obtain ⟨h1, h2⟩ := List.append_inj' hd hlen
  constructor
  · apply natStr_injective
    calc natStr k = String.mk (natStr k).data := rfl
      _ = String.mk (natStr k').data := by rw [h1]
      _ = natStr k' := rfl
  · have h3 := List.append_cancel_left h2
    have h4 : digitVal (digitChar m) = digitVal (digitChar m') := by
      rw [List.singleton_inj] at h3
      rw [h3]
    rw [digitVal_digitChar hm, digitVal_digitChar hm'] at h4
    exact h4

theorem idIn_mono {lo hi lo' hi' : ℕ} {v : String} (h1 : lo' ≤ lo) (h2 : hi ≤ hi')
    (h : idIn lo hi v) : idIn lo' hi' v := by
  rcases h with ⟨k, hk1, hk2, hv⟩ | ⟨k, m, hk1, hk2, hm1, hm2, hv⟩
  · exact Or.inl ⟨k, by omega, by omega, hv⟩
  · exact Or.inr ⟨k, m, by omega, by omega, hm1, hm2, hv⟩

/-- Ids handed out over disjoint counter ranges are distinct. -/
theorem idIn_ne {lo hi lo' hi' : ℕ} {v v' : String} (hd : hi ≤ lo')
    (h : idIn lo hi v) (h' : idIn lo' hi' v') : v ≠ v' := by
  rcases h with ⟨k, _, hk2, hv⟩ | ⟨k, m, _, hk2, _, hm2, hv⟩ <;>
    rcases h' with ⟨k', hk1', _, hv'⟩ | ⟨k', m', hk1', _, hm1', hm2', hv'⟩ <;>
      rw [hv, hv'] <;> intro heq
  · have := natStr_injective heq
    omega
  · exact natStr_ne_dup k k' m' heq
  · exact natStr_ne_dup k' k m heq.symm
  · have := dup_id_inj k k' m m' (by omega) (by omega) heq
    omega

/-- A `_dup_`-suffixed id is not a pure digit string. -/
theorem dup_id_not_all_digits (k m : ℕ) :
    ((natStr k ++ "_dup_" ++ natStr m).data.all Char.isDigit) = false := by
  rw [List.all_eq_false]
  refine ⟨'_', ?_, by decide⟩
  simp [String.data_append]

theorem nodup_natStr_range' (rid n : ℕ) : ((List.range' rid n).map natStr).Nodup :=
  List.Nodup.map natStr_injective (List.nodup_range' rid n 1 one_pos)

namespace GenLargeDataset

theorem generate_record_id (now : ℤ) (gid : String) (rid : ℕ) (s : Rng) :
    (generate_record now gid rid s).1.record_id = natStr rid := rfl

theorem create_duplicate_records_ids (base : Record) (n : ℕ) :
    (create_duplicate_records base n).map (fun r => r.record_id)
      = (List.range n).map (fun i => base.record_id ++ "_dup_" ++ natStr (i + 1)) := by
  simp [create_duplicate_records]

/-- The base-record loop hands out exactly the counter ids
`rid, rid+1, …, rid+n-1` (in order) and advances the counter to
`rid + n`. -/
theorem genBaseRecords_spec (now : ℤ) (gid : String) :
    ∀ (n rid : ℕ) (s : Rng),
      (genBaseRecords now gid rid n s).1.map (fun r => r.record_id)
          = (List.range' rid n).map natStr ∧
        (genBaseRecords now gid rid n s).2.1 = rid + n := by
  intro n
  induction n with
  | zero => intro rid s; simp [genBaseRecords]
  | succ n ih =>
    intro rid s
    unfold genBaseRecords
    dsimp only
    constructor
    · rw [List.map_cons, generate_record_id, (ih (rid + 1) _).1,
        List.range'_succ rid n 1, List.map_cons]
    · rw [(ih (rid + 1) _).2]
      omega

/-- One group-loop iteration: the counter only advances, the ids it
hands out are pairwise distinct, every id fits the `idIn` shape over
the counter range consumed, and the pure-digit ids are exactly the
map of a strictly increasing counter list. -/
theorem generate_group_spec (now : ℤ) (gnum rid : ℕ) (s : Rng) :
    rid ≤ (generate_group now gnum rid s).2.1 ∧
    ((generate_group now gnum rid s).1.map (fun r => r.record_id)).Nodup ∧
    (∀ v ∈ (generate_group now gnum rid s).1.map (fun r => r.record_id),
      idIn rid (generate_group now gnum rid s).2.1 v) ∧
    ∃ ks : List ℕ,
      ((generate_group now gnum rid s).1.map (fun r => r.record_id)).filter
          (fun v => v.data.all Char.isDigit) = ks.map natStr ∧
      List.Chain' (· < ·) ks ∧
      ∀ k ∈ ks, rid ≤ k ∧ k < (generate_group now gnum rid s).2.1 := by
  unfold generate_group
  dsimp only
  obtain ⟨hbids, hbctr⟩ := genBaseRecords_spec now ("GROUP_" ++ pad3 gnum)
    (pyRandintNat 1 50 (nextU s).1) rid (nextU s).2
  have hsz1 : 1 ≤ pyRandintNat 1 50 (nextU s).1 :=
    (pyRandintNat_mem 1 50 (nextU s).1 (by norm_num)).1
  split
  · -- duplicate branch
    have hglen : (genBaseRecords now ("GROUP_" ++ pad3 gnum) rid
        (pyRandintNat 1 50 (nextU s).1) (nextU s).2).1.length
          = pyRandintNat 1 50 (nextU s).1 := by
      have := congrArg List.length hbids
      simpa using this
    have hgne : (genBaseRecords now ("GROUP_" ++ pad3 gnum) rid
        (pyRandintNat 1 50 (nextU s).1) (nextU s).2).1 ≠ [] := by
      intro h
      rw [h] at hglen
      simp at hglen
      omega
    have hmem := pyChoiceVal_mem default hgne
      (nextU (nextU (genBaseRecords now ("GROUP_" ++ pad3 gnum) rid
        (pyRandintNat 1 50 (nextU s).1) (nextU s).2).2.2).2).1
    have hidmem : (pyChoiceVal default (genBaseRecords now ("GROUP_" ++ pad3 gnum) rid
        (pyRandintNat 1 50 (nextU s).1) (nextU s).2).1
        (nextU (nextU (genBaseRecords now ("GROUP_" ++ pad3 gnum) rid
          (pyRandintNat 1 50 (nextU s).1) (nextU s).2).2.2).2).1).record_id
        ∈ (List.range' rid (pyRandintNat 1 50 (nextU s).1)).map natStr := by
      rw [← hbids]
      exact List.mem_map_of_mem _ hmem
    obtain ⟨k₀, hk₀mem, hk₀eq⟩ := List.mem_map.mp hidmem
    rw [List.mem_range'_1] at hk₀mem
    refine ⟨?_, ?_, ?_, ?_⟩
    · dsimp only
      rw [hbctr]
      omega
    · dsimp only
      rw [List.map_append, hbids, create_duplicate_records_ids]
      unfold pyChoice
      dsimp only
      rw [← hk₀eq]
      refine List.Nodup.append (nodup_natStr_range' _ _) ?_ ?_
      · refine List.Nodup.map_on ?_ (List.nodup_range _)
        intro i hi j hj heq
        have hi5 : i < 5 := lt_of_lt_of_le (List.mem_range.mp hi)
          ((pyRandintNat_mem 1 5 _ (by norm_num)).2)
        have hj5 : j < 5 := lt_of_lt_of_le (List.mem_range.mp hj)
          ((pyRandintNat_mem 1 5 _ (by norm_num)).2)
        have := dup_id_inj k₀ k₀ (i + 1) (j + 1) (by omega) (by omega) heq
        omega
      · intro v hv hv'
        obtain ⟨k, _, hkeq⟩ := List.mem_map.mp hv
        obtain ⟨i, _, hieq⟩ := List.mem_map.mp hv'
        rw [← hkeq] at hieq
        exact natStr_ne_dup k k₀ (i + 1) hieq.symm
    · dsimp only
      intro v hv
      rw [List.map_append, hbids, create_duplicate_records_ids] at hv
      unfold pyChoice at hv
      dsimp only at hv
      rw [← hk₀eq] at hv
      rw [hbctr]
      rcases List.mem_append.mp hv with hv | hv
      · obtain ⟨k, hk, hkeq⟩ := List.mem_map.mp hv
        rw [List.mem_range'_1] at hk
        exact Or.inl ⟨k, by omega, by omega, hkeq.symm⟩
      · obtain ⟨i, hi, hieq⟩ := List.mem_map.mp hv
        have hi5 : i < 5 := lt_of_lt_of_le (List.mem_range.mp hi)
          ((pyRandintNat_mem 1 5 _ (by norm_num)).2)
        exact Or.inr ⟨k₀, i + 1, by omega, by omega, by omega, by omega, hieq.symm⟩
    · dsimp only
      refine ⟨List.range' rid (pyRandintNat 1 50 (nextU s).1), ?_, ?_, ?_⟩
      · rw [List.map_append, hbids, create_duplicate_records_ids]
        unfold pyChoice
        dsimp only
        rw [← hk₀eq, List.filter_append]
        rw [List.filter_eq_self.mpr, List.filter_eq_nil_iff.mpr, List.append_nil]
        · intro v hv
          obtain ⟨i, _, hieq⟩ := List.mem_map.mp hv
          rw [← hieq]
          rw [dup_id_not_all_digits]
          exact Bool.false_ne_true
        · intro v hv
          obtain ⟨k, _, hkeq⟩ := List.mem_map.mp hv
          rw [← hkeq]
          exact natStr_all_digits k
      · exact (List.pairwise_lt_range' rid _ 1 (by omega)).chain'
      · intro k hk
        rw [List.mem_range'_1] at hk
        rw [hbctr]
        omega
  · -- no-duplicate branch
    refine ⟨?_, ?_, ?_, ?_⟩
    · rw [hbctr]; omega
    · rw [hbids]; exact nodup_natStr_range' _ _
    · intro v hv
      rw [hbids] at hv
      obtain ⟨k, hk, hkeq⟩ := List.mem_map.mp hv
      rw [List.mem_range'_1] at hk
      rw [hbctr]
      exact Or.inl ⟨k, by omega, by omega, hkeq.symm⟩
    · refine ⟨List.range' rid (pyRandintNat 1 50 (nextU s).1), ?_, ?_, ?_⟩
      · rw [hbids, List.filter_eq_self.mpr]
        intro v hv
        obtain ⟨k, _, hkeq⟩ := List.mem_map.mp hv
        rw [← hkeq]
        exact natStr_all_digits k
      · exact (List.pairwise_lt_range' rid _ 1 (by omega)).chain'
      · intro k hk
        rw [List.mem_range'_1] at hk
        rw [hbctr]
        omega

/-- The whole group loop preserves the id invariant: distinct ids, all
of the `idIn` shape over the consumed counter range, and the pure-digit
ids are a strictly increasing sequence of counter values. -/
theorem genGroupsFrom_spec (now : ℤ) :
    ∀ (cnt gnum rid : ℕ) (s : Rng),
      rid ≤ (genGroupsFrom now gnum cnt rid s).2.1 ∧
      ((genGroupsFrom now gnum cnt rid s).1.map (fun r => r.record_id)).Nodup ∧
      (∀ v ∈ (genGroupsFrom now gnum cnt rid s).1.map (fun r => r.record_id),
        idIn rid (genGroupsFrom now gnum cnt rid s).2.1 v) ∧
      ∃ ks : List ℕ,
        ((genGroupsFrom now gnum cnt rid s).1.map (fun r => r.record_id)).filter
            (fun v => v.data.all Char.isDigit) = ks.map natStr ∧
        List.Chain' (· < ·) ks ∧
        ∀ k ∈ ks, rid ≤ k ∧ k < (genGroupsFrom now gnum cnt rid s).2.1 := by
  intro cnt
  induction cnt with
  | zero =>
    intro gnum rid s
    exact ⟨le_refl _, by simp [genGroupsFrom], by simp [genGroupsFrom],
      ⟨[], by simp [genGroupsFrom], List.chain'_nil, by simp⟩⟩
  | succ c ih =>
    intro gnum rid s
    unfold genGroupsFrom
    dsimp only
    obtain ⟨hg1, hg2, hg3, ks1, hk1, hc1, hb1⟩ := generate_group_spec now gnum rid s
    obtain ⟨hr1, hr2, hr3, ks2, hk2, hc2, hb2⟩ :=
      ih (gnum + 1) (generate_group now gnum rid s).2.1 (generate_group now gnum rid s).2.2
    refine ⟨le_trans hg1 hr1, ?_, ?_, ⟨ks1 ++ ks2, ?_, ?_, ?_⟩⟩
    · rw [List.map_append]
      refine List.Nodup.append hg2 hr2 ?_
      intro v hv hv'
      exact (idIn_ne (le_refl _) (hg3 v hv) (hr3 v hv')) rfl
    · intro v hv
      rw [List.map_append, List.mem_append] at hv
      rcases hv with hv | hv
      · exact idIn_mono (le_refl _) hr1 (hg3 v hv)
      · exact idIn_mono hg1 (le_refl _) (hr3 v hv)
    · rw [List.map_append, List.filter_append, hk1, hk2, List.map_append]
    · rw [List.chain'_append]
      refine ⟨hc1, hc2, ?_⟩
      intro x hx y hy
      have hxk : x ∈ ks1 := by
        obtain ⟨h, heq⟩ := List.mem_getLast?_eq_getLast hx
        rw [heq]
        exact List.getLast_mem h
      have hyk : y ∈ ks2 := List.mem_of_mem_head? hy
      have h1 := (hb1 x hxk).2
      have h2 := (hb2 y hyk).1
      omega
    · intro k hk
      rcases List.mem_append.mp hk with hk | hk
      · exact ⟨(hb1 k hk).1, lt_of_lt_of_le (hb1 k hk).2 hr1⟩
      · exact ⟨le_trans hg1 (hb2 k hk).1, (hb2 k hk).2⟩

/-- C10: in `generate_large_dataset()` all record identifiers are
pairwise distinct (no id is ever reused across the whole, shuffled
dataset), and before the shuffle the plain integer identifiers of the
base rows form a strictly increasing sequence of counter values (the
shared counter only moves forward, also past the duplicate copies);
duplicates are told apart from every base id and from each other by
their `_dup_` suffix. -/
theorem all_record_ids_distinct (now : ℤ) (s : Rng) :
    ((generate_large_dataset now s).1.map (fun r => r.record_id)).Nodup ∧
    ∃ ks : List ℕ,
      ((recordsPreShuffle now s).1.map (fun r => r.record_id)).filter
          (fun v => v.data.all Char.isDigit) = ks.map natStr ∧
      List.Chain' (· < ·) ks := by
  obtain ⟨_, hnd, _, ks, hk, hc, _⟩ := genGroupsFrom_spec now NUM_GROUPS 0 1 s
  constructor
  · have hperm : ((generate_large_dataset now s).1).Perm ((recordsPreShuffle now s).1) :=
      pyShuffle_perm (recordsPreShuffle now s).1 (recordsPreShuffle now s).2
    exact (List.Perm.nodup_iff (hperm.map (fun r => r.record_id))).mpr hnd
  · exact ⟨ks, hk, hc⟩

end GenLargeDataset

end PikaPlot
